import Mathlib

/-!
Verification of the FasalSetu smart crop advisory application's core logic.

This file gives a shallow embedding, in Lean, of the decision logic of the
application's service layer and proves the claimed properties about it:

* `src/services/smartAlertService.ts` — weather-threshold alert generation
  (`SmartAlertService.generateSmartAlerts` and its per-category generators);
* `src/lib/user-location.ts` (crop-db section) — crop-cycle CRUD helpers
  (`markCropAsHarvested`, `getActiveCrops`) and the disease-log based status
  classifier `getCropStatus` together with its manual-status override;
* `src/services/cropAdvisoryAI.ts` — the multilingual fallback reply of
  `CropAdvisoryAI.generateAdvice`;
* `src/lib/user-location.ts` — `updateUserLocation`, both as a pure function
  of its environment (fallback-coordinate behaviour) and as a small-step
  machine for the `locationUpdateInProgress` guard flag.

JavaScript numbers are modelled as rationals (`ℚ`), except epoch-millisecond
timestamps (`Date.now()`, `getTime()`), which are integers in JavaScript and
are modelled as `ℤ`.  Nullable values are `Option`, database rows are Lean
structures, and the database itself is a list of rows.  `Array.prototype.sort` (stable, per the ECMAScript specification)
is modelled by `List.insertionSort`, which is stable.  Display-only string
fields that are interpolated purely for the UI (`title`, `description`,
`actionRequired`) are not carried in the alert record; every field that any
control decision reads is carried.
-/

set_option maxHeartbeats 1000000
set_option linter.unnecessarySimpa false

namespace FasalSetu

/-! ## Data model shared across services -/

/-- Severity of one disease-log row; the database constrains
`severity IN ('mild','moderate','severe','unknown')`
(`FIX_DISEASE_LOGS_TABLE.sql`). -/
inductive Severity
  | mild
  | moderate
  | severe
  | unknown
deriving DecidableEq

/-- One row of the `disease_logs` table (the columns the services select). -/
structure DiseaseLogRow where
  disease_name : String
  severity : Severity
  crop_cycle_id : Int
  detection_date : ℤ
  user_id : String
deriving DecidableEq

/-- One row of the `crop_cycles` table (interface `CropCycle` in
`crop-db.ts`).  `expected_harvest_date` is the stored date string; the
services parse it with `new Date(...)`, modelled by an explicit parse
function where needed. -/
structure CropCycle where
  crop_id : Int
  crop_name : String
  sowing_date : String
  expected_harvest_date : Option String
  current_stage : String
  predicted_yield : Option ℚ
  is_active : Bool
  user_id : String
deriving DecidableEq

/-- Soil columns read by the alert service (`sand_pct`, `total_nitrogen`,
`organic_carbon`, `ph_h2o`); each may be null in the database. -/
structure SoilData where
  sand_pct : Option ℚ
  total_nitrogen : Option ℚ
  organic_carbon : Option ℚ
  ph_h2o : Option ℚ
deriving DecidableEq

/-! ## Smart alert service (`smartAlertService.ts`) -/

/-- Model of `SmartAlert.type` in `smartAlertService.ts`. -/
inductive AlertType
  | weather
  | irrigation
  | fertilizer
  | pest
  | harvest
  | disease
  | soil
deriving DecidableEq

/-- Model of `SmartAlert.priority` in `smartAlertService.ts`. -/
inductive AlertPriority
  | critical
  | high
  | medium
  | low
deriving DecidableEq

/-- The day-level fields of one `ForecastDay` that the alert service reads. -/
structure DayData where
  maxtemp_c : ℚ
  mintemp_c : ℚ
  avgtemp_c : ℚ
  maxwind_kph : ℚ
  totalprecip_mm : ℚ
  avghumidity : ℚ
  daily_chance_of_rain : ℚ
  uv : ℚ
deriving DecidableEq

/-- One forecast day (interface `ForecastDay` in `weatherService.ts`). -/
structure ForecastDay where
  date : String
  day : DayData
deriving DecidableEq

/-- An alert record.  The decision-relevant fields of `SmartAlert`; the
display-only interpolated strings (`title`, `description`,
`actionRequired`) are omitted. -/
structure SmartAlert where
  id : String
  type : AlertType
  priority : AlertPriority
  affectedCrops : List String
  date : String
  forecastDay : Option ForecastDay
deriving DecidableEq

/-- The static priority map `{ critical: 0, high: 1, medium: 2, low: 3 }`
used as the sort key. -/
def priorityOrder : AlertPriority → ℕ
  | .critical => 0
  | .high => 1
  | .medium => 2
  | .low => 3

/-- The comparator `(a, b) => priorityOrder[a.priority] - priorityOrder[b.priority]`
passed to `alerts.sort`, as an ordering relation. -/
def alertLe (a b : SmartAlert) : Prop :=
  priorityOrder a.priority ≤ priorityOrder b.priority

instance : DecidableRel alertLe := fun a b =>
  inferInstanceAs (Decidable (priorityOrder a.priority ≤ priorityOrder b.priority))

/-- Model of `generateRainAlert` (priority `high` above 20 mm, else `medium`). -/
def generateRainAlert (day : ForecastDay) (crops : List CropCycle) : SmartAlert :=
  { id := "rain-" ++ day.date
    type := .weather
    priority := if day.day.totalprecip_mm > 20 then .high else .medium
    affectedCrops := crops.map (·.crop_name)
    date := day.date
    forecastDay := some day }

/-- Model of `generateHeavyRainAlert` (always `critical`). -/
def generateHeavyRainAlert (day : ForecastDay) (crops : List CropCycle) : SmartAlert :=
  { id := "heavy-rain-" ++ day.date
    type := .weather
    priority := .critical
    affectedCrops := crops.map (·.crop_name)
    date := day.date
    forecastDay := some day }

/-- Model of `generateHeatAlert` (`critical` above 40 °C, else `high`). -/
def generateHeatAlert (day : ForecastDay) (crops : List CropCycle) : SmartAlert :=
  { id := "heat-" ++ day.date
    type := .weather
    priority := if day.day.maxtemp_c > 40 then .critical else .high
    affectedCrops := crops.map (·.crop_name)
    date := day.date
    forecastDay := some day }

/-- Model of `generateColdAlert` (`critical` below 5 °C, else `high`). -/
def generateColdAlert (day : ForecastDay) (crops : List CropCycle) : SmartAlert :=
  { id := "cold-" ++ day.date
    type := .weather
    priority := if day.day.mintemp_c < 5 then .critical else .high
    affectedCrops := crops.map (·.crop_name)
    date := day.date
    forecastDay := some day }

/-- Model of `generateWindAlert` (`critical` above 60 km/h, else `high`). -/
def generateWindAlert (day : ForecastDay) (crops : List CropCycle) : SmartAlert :=
  { id := "wind-" ++ day.date
    type := .weather
    priority := if day.day.maxwind_kph > 60 then .critical else .high
    affectedCrops := crops.map (·.crop_name)
    date := day.date
    forecastDay := some day }

/-- Model of `generateDiseaseRiskAlert` (always `high`). -/
def generateDiseaseRiskAlert (day : ForecastDay) (crops : List CropCycle)
    (_diseases : List DiseaseLogRow) : SmartAlert :=
  { id := "disease-risk-" ++ day.date
    type := .disease
    priority := .high
    affectedCrops := crops.map (·.crop_name)
    date := day.date
    forecastDay := some day }

/-- Model of `generateIrrigationAlert` (always `medium`; the soil data only shapes
the display text). -/
def generateIrrigationAlert (day : ForecastDay) (crops : List CropCycle)
    (_soilData : Option SoilData) : SmartAlert :=
  { id := "irrigation-needed"
    type := .irrigation
    priority := .medium
    affectedCrops := crops.map (·.crop_name)
    date := day.date
    forecastDay := some day }

/-- Model of `generateUVAlert` (always `low`, no affected crops). -/
def generateUVAlert (day : ForecastDay) : SmartAlert :=
  { id := "uv-" ++ day.date
    type := .weather
    priority := .low
    affectedCrops := []
    date := day.date
    forecastDay := some day }

/-- Model of `generateFertilizerAlert`: emitted only when nitrogen < 0.1 or organic
carbon < 5 (null columns read as 0 via `|| 0`). -/
def generateFertilizerAlert (soilData : SoilData) (crops : List CropCycle)
    (todayStr : String) : Option SmartAlert :=
  let nitrogen := soilData.total_nitrogen.getD 0
  let organicCarbon := soilData.organic_carbon.getD 0
  if nitrogen < 1/10 ∨ organicCarbon < 5 then
    some { id := "fertilizer-alert"
           type := .fertilizer
           priority := .high
           affectedCrops := crops.map (·.crop_name)
           date := todayStr
           forecastDay := none }
  else none

/-- Milliseconds in one day, the divisor `1000 * 60 * 60 * 24`. -/
def msPerDay : ℤ := 1000 * 60 * 60 * 24

/-- Model of `generateHarvestAlerts`: one alert per active crop whose expected
harvest is 1–14 days away (`Math.ceil` of the millisecond difference).
`now` is `new Date().getTime()` and `parseDate` models
`new Date(string).getTime()`. -/
def generateHarvestAlerts (crops : List CropCycle) (now : ℤ)
    (parseDate : String → ℤ) : List SmartAlert :=
  crops.flatMap fun crop =>
    match crop.expected_harvest_date with
    | none => []
    | some hd =>
      let daysUntilHarvest : ℤ := ⌈((parseDate hd - now : ℤ) : ℚ) / (msPerDay : ℚ)⌉
      if 0 < daysUntilHarvest ∧ daysUntilHarvest ≤ 14 then
        [{ id := "harvest-" ++ toString crop.crop_id
           type := .harvest
           priority := if daysUntilHarvest ≤ 7 then .high else .medium
           affectedCrops := [crop.crop_name]
           date := hd
           forecastDay := none }]
      else []

/-- The body of the per-day `for` loop of `generateSmartAlerts`: the
rain/heavy-rain `if`/`else if` pair, then the independent heat, cold, wind,
disease-risk (first day only) and UV (first two days only) checks, in push
order. -/
def dayAlerts (i : ℕ) (day : ForecastDay) (crops : List CropCycle)
    (recentDiseases : List DiseaseLogRow) : List SmartAlert :=
  (if day.day.totalprecip_mm > 50 then [generateHeavyRainAlert day crops]
   else if day.day.daily_chance_of_rain > 70 ∧ day.day.totalprecip_mm > 5 then
     [generateRainAlert day crops]
   else [])
  ++ (if day.day.maxtemp_c > 35 then [generateHeatAlert day crops] else [])
  ++ (if day.day.mintemp_c < 10 then [generateColdAlert day crops] else [])
  ++ (if day.day.maxwind_kph > 40 then [generateWindAlert day crops] else [])
  ++ (if i = 0 ∧ day.day.avghumidity > 80 ∧ recentDiseases ≠ [] then
        [generateDiseaseRiskAlert day crops recentDiseases]
      else [])
  ++ (if i < 2 ∧ day.day.uv > 8 then [generateUVAlert day] else [])

/-- Model of `generateFillerAlerts`.  It reads `forecastday[0]` and `forecastday[1]`
unconditionally, so on a forecast shorter than two days it throws a
`TypeError` in JavaScript, modelled by `none` (the caller's `catch` then
yields `[]`).  All fillers have priority `low`; at most `needed = 4 - count`
are returned. -/
def generateFillerAlerts (forecast : List ForecastDay) (crops : List CropCycle)
    (soilData : Option SoilData) (todayStr : String) (currentCount : ℕ) :
    Option (List SmartAlert) :=
  let needed : ℕ := 4 - currentCount
  if needed = 0 then some [] else
  match forecast with
  | today :: _tomorrow :: _ =>
    let names := crops.map (·.crop_name)
    let fs : List SmartAlert :=
      [{ id := "weather-summary", type := .weather, priority := .low
         affectedCrops := names, date := today.date, forecastDay := some today }]
    let fs := if fs.length < needed ∧ soilData.isSome then
        fs ++ [{ id := "soil-monitoring", type := .soil, priority := .low
                 affectedCrops := names, date := todayStr, forecastDay := none }]
      else fs
    let fs := if fs.length < needed ∧ crops ≠ [] then
        fs ++ [{ id := "crop-monitoring", type := .pest, priority := .low
                 affectedCrops := names, date := todayStr, forecastDay := none }]
      else fs
    let fs := if fs.length < needed then
        fs ++ [{ id := "optimal-conditions", type := .weather, priority := .low
                 affectedCrops := names, date := today.date, forecastDay := some today }]
      else fs
    let fs := if fs.length < needed then
        fs ++ [{ id := "weekly-planning", type := .irrigation, priority := .low
                 affectedCrops := names, date := today.date, forecastDay := none }]
      else fs
    some (fs.take needed)
  | _ => none

/-- The final stage of `generateSmartAlerts`:
`alerts.sort((a, b) => priorityOrder[a.priority] - priorityOrder[b.priority])`
followed by `alerts.slice(0, 6)`. -/
def sortAndCap (alerts : List SmartAlert) : List SmartAlert :=
  (alerts.insertionSort alertLe).take 6

/-- Model of `SmartAlertService.generateSmartAlerts`, as a function of the fetched
forecast days, active crops, soil row, recent disease logs, the current time
`now` (ms), today's date string and the date parser.  Weather-day alerts,
then the irrigation, fertilizer and harvest alerts, then (when fewer than 3
alerts) fillers; the whole list is stably sorted by the static priority map
and truncated to 6.  A thrown exception (short forecast inside the filler
code) is caught and yields `[]`. -/
def generateSmartAlerts (forecast : List ForecastDay) (crops : List CropCycle)
    (soilData : Option SoilData) (recentDiseases : List DiseaseLogRow)
    (now : ℤ) (todayStr : String) (parseDate : String → ℤ) : List SmartAlert :=
  let weatherAlerts :=
    forecast.enum.flatMap fun p => dayAlerts p.1 p.2 crops recentDiseases
  let daysWithoutRain :=
    (forecast.filter fun d =>
      decide (¬(d.day.daily_chance_of_rain > 30 ∨ d.day.totalprecip_mm > 1))).length
  let irrigationAlerts :=
    if daysWithoutRain ≥ 3 then
      match forecast.find? (fun d =>
          decide (d.day.daily_chance_of_rain < 20 ∧ d.day.totalprecip_mm < 2)) with
      | some nextDryDay => [generateIrrigationAlert nextDryDay crops soilData]
      | none => []
    else []
  let fertilizerAlerts :=
    match soilData with
    | some sd => (generateFertilizerAlert sd crops todayStr).toList
    | none => []
  let harvestAlerts := generateHarvestAlerts crops now parseDate
  let alerts := weatherAlerts ++ irrigationAlerts ++ fertilizerAlerts ++ harvestAlerts
  if alerts.length < 3 then
    match generateFillerAlerts forecast crops soilData todayStr alerts.length with
    | none => []
    | some fillers => sortAndCap (alerts ++ fillers)
  else sortAndCap alerts

/-! ## Crop-cycle CRUD (`crop-db.ts` section of `user-location.ts`) -/

/-- The row transformation of `markCropAsHarvested`'s SQL update
(`update({ is_active: false }).eq('crop_id', cropId).eq('user_id', user.id)`):
a row matching both filters gets `is_active := false`, every other row is
untouched. -/
def harvestRow (userId : String) (cropId : Int) (r : CropCycle) : CropCycle :=
  if r.crop_id = cropId ∧ r.user_id = userId then { r with is_active := false } else r

/-- Model of `markCropAsHarvested`, acting on the `crop_cycles` table. -/
def markCropAsHarvested (userId : String) (cropId : Int) (db : List CropCycle) :
    List CropCycle :=
  db.map (harvestRow userId cropId)

/-- Ordering used by `getActiveCrops`'s
`order('crop_id', { ascending: false })`. -/
def cropIdDesc (a b : CropCycle) : Prop := b.crop_id ≤ a.crop_id

instance : DecidableRel cropIdDesc := fun a b =>
  inferInstanceAs (Decidable (b.crop_id ≤ a.crop_id))

/-- Model of `getActiveCrops`: the user's rows with `is_active = true`,
ordered by `crop_id` descending. -/
def getActiveCrops (userId : String) (db : List CropCycle) : List CropCycle :=
  (db.filter fun r => decide (r.user_id = userId ∧ r.is_active = true)).insertionSort
    cropIdDesc

/-! ## Crop status classification (`getCropStatus` in `crop-db.ts`) -/

/-- The status values `'healthy' | 'attention' | 'critical'`; the database
constrains `manual_status` to the same three values
(`ADD_MANUAL_STATUS_COLUMNS.sql`). -/
inductive CropHealth
  | healthy
  | attention
  | critical
deriving DecidableEq

/-- The stored state that `getCropStatus` consults, together with the
outcome of its `disease_logs` query: the crop row's manual-status columns,
whether the disease-log query returns an error, and the `disease_logs`
table contents. -/
structure CropStatusDb where
  manual_status : Option CropHealth
  manual_status_updated_at : Option ℤ
  disease_query_error : Bool
  disease_logs : List DiseaseLogRow
deriving DecidableEq

/-- Ordering used by the disease-log query's
`order('detection_date', { ascending: false })`. -/
def detectionDesc (a b : DiseaseLogRow) : Prop := b.detection_date ≤ a.detection_date

instance : DecidableRel detectionDesc := fun a b =>
  inferInstanceAs (Decidable (b.detection_date ≤ a.detection_date))

/-- The disease-log query of `getCropStatus`: rows of this crop whose
`detection_date` is within the last 30 days, newest first. -/
def recentDiseaseLogs (db : CropStatusDb) (cropId : Int) (now : ℤ) :
    List DiseaseLogRow :=
  (db.disease_logs.filter fun l =>
    decide (l.crop_cycle_id = cropId ∧ now - 30 * msPerDay ≤ l.detection_date)).insertionSort
    detectionDesc

/-- The severity-count classification at the end of `getCropStatus`:
no rows → healthy; 2+ rows or any severe row → critical; otherwise a mild
or moderate row → attention; otherwise healthy. -/
def classifyFromLogs (diseaseLogs : List DiseaseLogRow) : CropHealth :=
  if diseaseLogs.length = 0 then .healthy
  else
    let severeDiseases := (diseaseLogs.filter fun d => decide (d.severity = .severe)).length
    let moderateDiseases := (diseaseLogs.filter fun d => decide (d.severity = .moderate)).length
    let mildDiseases := (diseaseLogs.filter fun d => decide (d.severity = .mild)).length
    let totalDiseases := diseaseLogs.length
    if totalDiseases ≥ 2 then .critical
    else if severeDiseases > 0 then .critical
    else if moderateDiseases > 0 ∨ mildDiseases > 0 then .attention
    else .healthy

/-- The non-manual part of `getCropStatus`: healthy on a disease-log query
error, otherwise the severity-count classification of the recent logs. -/
def statusFromLogs (crop : CropCycle) (db : CropStatusDb) (now : ℤ) : CropHealth :=
  if db.disease_query_error then CropHealth.healthy
  else classifyFromLogs (recentDiseaseLogs db crop.crop_id now)

/-- Model of `getCropStatus`: a manual status set within the last 7 days
wins; otherwise (including when the manual columns are null or expired) the
classification comes from the disease-log query, defaulting to healthy on a
query error. -/
def getCropStatus (crop : CropCycle) (db : CropStatusDb) (now : ℤ) : CropHealth :=
  match db.manual_status, db.manual_status_updated_at with
  | some st, some t =>
    if now - 7 * msPerDay < t then st else statusFromLogs crop db now
  | _, _ => statusFromLogs crop db now

/-- Model of `updateCropStatus`: writes the manual-status columns of the
crop's row (the stored per-crop state that `getCropStatus` consults). -/
def updateCropStatus (db : CropStatusDb) (status : CropHealth) (now : ℤ) :
    CropStatusDb :=
  { db with manual_status := some status, manual_status_updated_at := some now }

/-! ## Crop advisory AI fallback (`cropAdvisoryAI.ts`) -/

/-- The supported languages `'hi' | 'mr' | 'te' | 'ta' | 'en' | 'mixed'`. -/
inductive Language
  | hi
  | mr
  | te
  | ta
  | en
  | mixed
deriving DecidableEq

/-- The language's string code as stored in `preferredLanguage`. -/
def Language.code : Language → String
  | .hi => "hi"
  | .mr => "mr"
  | .te => "te"
  | .ta => "ta"
  | .en => "en"
  | .mixed => "mixed"

/-- Fields of `FarmerContext.farmerProfile` that the fallback path reads. -/
structure FarmerProfile where
  name : Option String
  location : Option String
  preferredLanguage : Option Language
deriving DecidableEq

/-- The advisory context; `farmerProfile` is accessed with optional
chaining (`context.farmerProfile?.preferredLanguage`), hence `Option`. -/
structure FarmerContext where
  farmerId : String
  sessionId : String
  farmerProfile : Option FarmerProfile
deriving DecidableEq

/-- Priorities of a suggested action. -/
inductive ActionPriority
  | high
  | medium
  | low
deriving DecidableEq

/-- Timings of a suggested action. -/
inductive ActionTiming
  | immediate
  | this_week
  | this_month
deriving DecidableEq

/-- One entry of `CropAdvisoryResponse.suggestedActions`. -/
structure SuggestedAction where
  action : String
  priority : ActionPriority
  timing : ActionTiming
deriving DecidableEq

/-- The `category` field of `CropAdvisoryResponse`. -/
inductive ResponseCategory
  | crop_planning
  | soil_advice
  | fertilizer
  | irrigation
  | disease_pest
  | weather
  | harvest
  | market
  | general
deriving DecidableEq

/-- The `alertLevel` field of `CropAdvisoryResponse`. -/
inductive AlertLevel
  | levelNone
  | info
  | warning
  | urgent
deriving DecidableEq

/-- Model of interface `CropAdvisoryResponse`. -/
structure CropAdvisoryResponse where
  message : String
  detectedLanguage : String
  category : ResponseCategory
  suggestedActions : List SuggestedAction
  quickTips : List String
  followUpQuestions : List String
  alertLevel : AlertLevel
  confidence : ℚ
deriving DecidableEq

/-- The `fallbackMessages` table of `getFallbackResponse`: one fixed canned
string per supported language. -/
def fallbackMessages : Language → String
  | .hi => "नमस्ते! मैं आपकी खेती में मदद करने के लिए यहाँ हूँ। कृपया अपना सवाल फिर से पूछें।"
  | .mr => "नमस्कार! मी तुमच्या शेतीसाठी मदत करण्यासाठी येथे आहे। कृपया तुमचा प्रश्न पुन्हा विचारा।"
  | .te => "నమస్కారం! నేను మీ వ్యవసాయంలో సహాయం చేయడానికి ఇక్కడ ఉన్నాను। దయచేసి మీ ప్రశ్నను మళ్లీ అడగండి।"
  | .ta => "வணக்கம்! உங்கள் விவசாயத்தில் உதவ நான் இங்கே இருக்கிறேன். தயவுசெய்து உங்கள் கேள்வியை மீண்டும் கேளுங்கள்."
  | .en => "Hello! I am here to help with your farming. Please ask your question again."
  | .mixed => "नमस्ते! मैं आपकी farming में help करने के लिए यहाँ हूँ। Please ask your question again।"

/-- Model of `CropAdvisoryAI.getFallbackResponse`: the canned reply in the
context's preferred language (`'mixed'` when unset).  Since every
`Language` is a key of the table and every canned string is non-empty, the
JavaScript `fallbackMessages[language] || fallbackMessages.mixed` is the
total lookup `fallbackMessages`. -/
def getFallbackResponse (context : FarmerContext) : CropAdvisoryResponse :=
  let language := (context.farmerProfile.bind (·.preferredLanguage)).getD .mixed
  { message := fallbackMessages language
    detectedLanguage := language.code
    category := .general
    suggestedActions := [{ action := "मिट्टी की जांच करें / Check soil health"
                           priority := .medium
                           timing := .this_week }]
    quickTips := ["नियमित रूप से खेत का निरीक्षण करें", "मौसम की जानकारी रखें"]
    followUpQuestions := ["आप कौन सी फसल उगाना चाहते हैं?", "आपकी मिट्टी का प्रकार क्या है?"]
    alertLevel := .info
    confidence := 6/10 }

/-- The context merge at the top of `generateAdvice`, restricted to the
profile (the UI value takes precedence over the database value, and the
merged `preferredLanguage` defaults to `'mixed'`). -/
def enrichContext (context dbContext : FarmerContext) : FarmerContext :=
  { farmerId := context.farmerId
    sessionId := context.sessionId
    farmerProfile := some
      { name := (context.farmerProfile.bind (·.name)).orElse
          fun _ => dbContext.farmerProfile.bind (·.name)
        location := (context.farmerProfile.bind (·.location)).orElse
          fun _ => dbContext.farmerProfile.bind (·.location)
        preferredLanguage := some
          (((context.farmerProfile.bind (·.preferredLanguage)).orElse
            fun _ => dbContext.farmerProfile.bind (·.preferredLanguage)).getD .mixed) } }

/-- The outcome of the generative-AI call inside `generateAdvice`:
the model/API key is missing, the 25 s timeout fires, the call throws, the
returned text is empty, or a non-empty text is produced. -/
inductive AIOutcome
  | notConfigured
  | timeout
  | threwError
  | emptyResponse
  | success (text : String)
deriving DecidableEq

/-- Model of `CropAdvisoryAI.generateAdvice` as a function of the AI-call
outcome.  The response parsing of a successful call is an explicit
parameter (`parseResponse`); every non-success outcome lands in
`getFallbackResponse` (the `!this.model || !this.apiKey` early return, or
the `catch` around the `Promise.race` of the generation and the timeout,
which also catches the errors thrown on an absent or empty response). -/
def generateAdvice (context dbContext : FarmerContext)
    (parseResponse : String → FarmerContext → CropAdvisoryResponse)
    (outcome : AIOutcome) : CropAdvisoryResponse :=
  let enrichedContext := enrichContext context dbContext
  match outcome with
  | .success text => parseResponse text enrichedContext
  | _ => getFallbackResponse enrichedContext

/-! ## User location update (`updateUserLocation` in `user-location.ts`) -/

/-- Interface `LocationData` of `geolocationService.ts`. -/
structure LocationData where
  latitude : ℚ
  longitude : ℚ
  accuracy : ℚ
  city : Option String
  state : Option String
  country : Option String
deriving DecidableEq

/-- Interface `UserLocation` of `location-sync.ts`. -/
structure UserLocation where
  latitude : ℚ
  longitude : ℚ
  accuracy : Option ℚ
  city : Option String
  state : Option String
  country : Option String
  location_updated_at : Option String
deriving DecidableEq

/-- Interface `AuthUser` of `auth-helpers.ts`. -/
structure AuthUser where
  id : String
  phone : String
  created_at : String
deriving DecidableEq

/-- The module-level guard state of `user-location.ts`:
`locationUpdateInProgress`, `permissionDenied`, `lastPermissionCheck`. -/
structure LocationFlags where
  locationUpdateInProgress : Bool
  permissionDenied : Bool
  lastPermissionCheck : ℤ
deriving DecidableEq

/-- The constant `PERMISSION_CHECK_COOLDOWN = 60000` (one minute). -/
def PERMISSION_CHECK_COOLDOWN : ℤ := 60000

/-- The environment one call of `updateUserLocation` runs against:
`Date.now()`, the ISO timestamp string, the authenticated user (if any),
the browser geolocation result (`none` when unavailable), and whether
`saveLocationToDatabase` succeeds. -/
structure LocationEnv where
  now : ℤ
  nowIso : String
  user : Option AuthUser
  geo : Option LocationData
  saveOk : Bool
deriving DecidableEq

/-- The fixed fallback coordinates used when browser geolocation is
unavailable. -/
def fallbackLocation : LocationData :=
  { latitude := 28.6872
    longitude := 77.2140
    accuracy := 1000
    city := some "Delhi"
    state := some "Delhi"
    country := some "India" }

/-- Model of `updateUserLocation` as one atomic call: the in-progress and
permission-cooldown guards, the missing-user early return, the
fallback-coordinate branch when geolocation is unavailable, and the normal
save branch.  The `finally` clause clears `locationUpdateInProgress` on
every path that entered the `try` block. -/
def updateUserLocation (flags : LocationFlags) (env : LocationEnv) :
    Option UserLocation × LocationFlags :=
  if flags.locationUpdateInProgress then (none, flags)
  else if flags.permissionDenied = true ∧
      env.now - flags.lastPermissionCheck < PERMISSION_CHECK_COOLDOWN then
    (none, flags)
  else
    let flags1 := { flags with locationUpdateInProgress := true
                               lastPermissionCheck := env.now }
    match env.user with
    | none => (none, { flags1 with locationUpdateInProgress := false })
    | some _ =>
      match env.geo with
      | none =>
        let flags2 := { flags1 with permissionDenied := true }
        if env.saveOk then
          (some { latitude := fallbackLocation.latitude
                  longitude := fallbackLocation.longitude
                  accuracy := some fallbackLocation.accuracy
                  city := fallbackLocation.city
                  state := fallbackLocation.state
                  country := fallbackLocation.country
                  location_updated_at := some env.nowIso },
           { flags2 with locationUpdateInProgress := false })
        else (none, { flags2 with locationUpdateInProgress := false })
      | some location =>
        let flags2 := { flags1 with permissionDenied := false }
        if env.saveOk then
          (some { latitude := location.latitude
                  longitude := location.longitude
                  accuracy := some location.accuracy
                  city := location.city
                  state := location.state
                  country := location.country
                  location_updated_at := some env.nowIso },
           { flags2 with locationUpdateInProgress := false })
        else (none, { flags2 with locationUpdateInProgress := false })

/-! ## The `locationUpdateInProgress` guard as a small-step machine

`updateUserLocation` is an `async` function: between its `await` points
other calls to it can start.  The machine below has one task per pending
call.  A task at `Pc.pcGuard` is at the synchronous prologue (the
in-progress guard, the cooldown guard, and — if it proceeds — setting
`locationUpdateInProgress = true`, all before the first `await`); the other
program counters name the `await` the task is suspended at.  Every path out
of the `try` block runs the `finally` clause, clearing the flag. -/

namespace LocationGuard

/-- Program counter of one pending `updateUserLocation` call. -/
inductive Pc
  | pcGuard
  | awaitUser
  | awaitGeo
  | awaitSaveFallback
  | awaitSave
deriving DecidableEq

/-- A task is in flight once it has passed the guard (and so has set
`locationUpdateInProgress`). -/
def Pc.inFlight : Pc → Bool
  | .pcGuard => false
  | _ => true

/-- Observable event of one task step: an internal resumption, or the call
returning (`gotLocation` tells whether a location, rather than `null`, was
returned). -/
inductive Ev
  | internal
  | ret (gotLocation : Bool)
deriving DecidableEq

/-- One step of a single task: from the flag value and the task's program
counter to the new flag value and the task's next program counter (`none`
when the call returns).  Each constructor is one control path of
`updateUserLocation`. -/
inductive TaskStep : Bool → Pc → Ev → Bool → Option Pc → Prop
  /-- The in-progress guard: flag set → return `null`, flag untouched. -/
  | guardBusy : TaskStep true .pcGuard (.ret false) true none
  /-- The permission-denied cooldown: return `null` before the `try` block,
  flag untouched. -/
  | guardCooldown : TaskStep false .pcGuard (.ret false) false none
  /-- Passing the guards: set the flag and await `getCurrentUser()`. -/
  | guardEnter : TaskStep false .pcGuard .internal true (some .awaitUser)
  /-- No authenticated user (or `getCurrentUser` threw): return `null`;
  `finally` clears the flag. -/
  | userMissing (f : Bool) : TaskStep f .awaitUser (.ret false) false none
  /-- A user exists: await `geolocationService.getCurrentLocation()`. -/
  | userOk (f : Bool) : TaskStep f .awaitUser .internal f (some .awaitGeo)
  /-- Geolocation unavailable: await the fallback-location save. -/
  | geoNull (f : Bool) : TaskStep f .awaitGeo .internal f (some .awaitSaveFallback)
  /-- Geolocation produced a location: await the save. -/
  | geoOk (f : Bool) : TaskStep f .awaitGeo .internal f (some .awaitSave)
  /-- Geolocation threw: the `catch` returns `null`; `finally` clears the
  flag. -/
  | geoThrew (f : Bool) : TaskStep f .awaitGeo (.ret false) false none
  /-- The fallback save finished (success, failure or throw): the call
  returns; `finally` clears the flag. -/
  | saveFallbackDone (f ok : Bool) : TaskStep f .awaitSaveFallback (.ret ok) false none
  /-- The save finished (success, failure or throw): the call returns;
  `finally` clears the flag. -/
  | saveDone (f ok : Bool) : TaskStep f .awaitSave (.ret ok) false none

/-- Global state: the `locationUpdateInProgress` flag and the pending
tasks. -/
structure MState where
  inProgress : Bool
  tasks : List Pc
deriving DecidableEq

/-- Global step: a new call starts (at the guard), or one pending task
takes a step. -/
inductive Step : MState → MState → Prop
  | spawn (s : MState) : Step s ⟨s.inProgress, Pc.pcGuard :: s.tasks⟩
  | task (f f' : Bool) (l r : List Pc) (pc : Pc) (ev : Ev) (nx : Option Pc) :
      TaskStep f pc ev f' nx →
      Step ⟨f, l ++ pc :: r⟩ ⟨f', l ++ nx.toList ++ r⟩

/-- States reachable from the initial state (flag clear, no pending
calls). -/
inductive Reachable : MState → Prop
  | init : Reachable ⟨false, []⟩
  | step {s s' : MState} : Reachable s → Step s s' → Reachable s'

/-- Number of updates currently in flight. -/
def inFlightCount (s : MState) : ℕ := s.tasks.countP Pc.inFlight

end LocationGuard

/-! ## Concrete sample data for counterexamples and witnesses -/

/-- A forecast day with heavy rain (60 mm), a 80 % rain chance, heat
(36 °C), strong wind (50 km/h) and a high UV index. -/
def sampleDay : ForecastDay :=
  { date := "2025-06-01"
    day := { maxtemp_c := 36
             mintemp_c := 20
             avgtemp_c := 30
             maxwind_kph := 50
             totalprecip_mm := 60
             avghumidity := 50
             daily_chance_of_rain := 80
             uv := 9 } }

/-- A sample active crop cycle. -/
def sampleCrop : CropCycle :=
  { crop_id := 1
    crop_name := "Wheat"
    sowing_date := "2025-01-01"
    expected_harvest_date := none
    current_stage := "growing"
    predicted_yield := none
    is_active := true
    user_id := "farmer-1" }

/-- A second active crop cycle, owned by a different user. -/
def otherCrop : CropCycle :=
  { crop_id := 2
    crop_name := "Rice"
    sowing_date := "2025-02-01"
    expected_harvest_date := some "2025-06-01"
    current_stage := "sowing"
    predicted_yield := some 10
    is_active := true
    user_id := "farmer-2" }

/-- A disease-log row for `sampleCrop` with the given severity, detected at
time 0. -/
def sampleLog (sev : Severity) : DiseaseLogRow :=
  { disease_name := "Leaf Rust"
    severity := sev
    crop_cycle_id := 1
    detection_date := 0
    user_id := "farmer-1" }

/-- A sample authenticated user. -/
def sampleUser : AuthUser :=
  { id := "farmer-1", phone := "9999999999", created_at := "2025-01-01" }

/-! # Theorems -/

/-! ## Generic helper lemmas -/

/-- Appending the same suffix to two different strings yields different
strings. -/
theorem strApp_ne {p q : String} (h : p ≠ q) (d : String) : p ++ d ≠ q ++ d := by
  intro he
  have hd : p.data ++ d.data = q.data ++ d.data := by
    have hdata := congrArg String.data he
    simpa [String.data_append] using hdata
  exact h (String.ext (List.append_cancel_right hd))

/-- Alerts with different ids are different. -/
theorem SmartAlert_ne_of_id_ne {a b : SmartAlert} (h : a.id ≠ b.id) : a ≠ b :=
  fun he => h (congrArg SmartAlert.id he)

/-- Membership in a conditional singleton. -/
theorem mem_ite_list {α : Type} {c : Prop} [Decidable c] {x a : α} :
    (a ∈ if c then [x] else ([] : List α)) ↔ c ∧ a = x := by
  split <;> simp_all

/-- Zipping a list with its own map pairs each element with its image. -/
theorem zip_map_self {α : Type} (f : α → α) :
    ∀ l : List α, l.zip (l.map f) = l.map fun a => (a, f a)
  | [] => rfl
  | a :: l => by simp [zip_map_self f l]

/-- The comparator `alertLe` is total. -/
instance : IsTotal SmartAlert alertLe :=
  ⟨fun a b => Nat.le_total (priorityOrder a.priority) (priorityOrder b.priority)⟩

/-- The comparator `alertLe` is transitive. -/
instance : IsTrans SmartAlert alertLe := ⟨fun _ _ _ => Nat.le_trans⟩

/-- Any prefix of a priority-sorted alert list is priority-sorted. -/
theorem pairwise_take_insertionSort (l : List SmartAlert) (n : ℕ) :
    ((l.insertionSort alertLe).take n).Pairwise alertLe :=
  List.Pairwise.sublist (List.take_sublist n _) (List.sorted_insertionSort alertLe l)

/-- Membership characterization of the per-day alert generation: each
category's alert is present exactly under its own condition. -/
theorem mem_dayAlerts {i : ℕ} {day : ForecastDay} {crops : List CropCycle}
    {ds : List DiseaseLogRow} {a : SmartAlert} :
    a ∈ dayAlerts i day crops ds ↔
      (day.day.totalprecip_mm > 50 ∧ a = generateHeavyRainAlert day crops)
      ∨ (¬day.day.totalprecip_mm > 50 ∧
          (day.day.daily_chance_of_rain > 70 ∧ day.day.totalprecip_mm > 5) ∧
          a = generateRainAlert day crops)
      ∨ (day.day.maxtemp_c > 35 ∧ a = generateHeatAlert day crops)
      ∨ (day.day.mintemp_c < 10 ∧ a = generateColdAlert day crops)
      ∨ (day.day.maxwind_kph > 40 ∧ a = generateWindAlert day crops)
      ∨ ((i = 0 ∧ day.day.avghumidity > 80 ∧ ds ≠ []) ∧
          a = generateDiseaseRiskAlert day crops ds)
      ∨ ((i < 2 ∧ day.day.uv > 8) ∧ a = generateUVAlert day) := by
  unfold dayAlerts
  by_cases h1 : day.day.totalprecip_mm > 50 <;>
    by_cases h2 : day.day.daily_chance_of_rain > 70 ∧ day.day.totalprecip_mm > 5 <;>
    simp [h1, h2, mem_ite_list, List.mem_append, or_assoc]

/-! ## C2: the returned alert list is sorted by the static priority map -/

/-- C2.  For every input (forecast, crops, soil data, recent diseases), the
list returned by `generateSmartAlerts` is sorted by the static priority map
`priorityOrder`: every `critical` alert precedes every `high` alert, which
precedes every `medium` alert, which precedes every `low` alert. -/
theorem generateSmartAlerts_sorted_by_priority (forecast : List ForecastDay)
    (crops : List CropCycle) (soilData : Option SoilData)
    (recentDiseases : List DiseaseLogRow) (now : ℤ) (todayStr : String)
    (parseDate : String → ℤ) :
    (generateSmartAlerts forecast crops soilData recentDiseases now todayStr
      parseDate).Pairwise alertLe := by
  unfold generateSmartAlerts
  simp only []
  repeat' split
  all_goals first
    | exact List.Pairwise.nil
    | exact pairwise_take_insertionSort _ 6

/-! ## C9: at most 6 alerts are returned -/

/-- C9.  For every input, `generateSmartAlerts` returns at most 6 alerts,
even when the per-day threshold checks, harvest alerts and filler alerts
together produce more. -/
theorem generateSmartAlerts_at_most_six (forecast : List ForecastDay)
    (crops : List CropCycle) (soilData : Option SoilData)
    (recentDiseases : List DiseaseLogRow) (now : ℤ) (todayStr : String)
    (parseDate : String → ℤ) :
    (generateSmartAlerts forecast crops soilData recentDiseases now todayStr
      parseDate).length ≤ 6 := by
  unfold generateSmartAlerts
  simp only []
  repeat' split
  all_goals first
    | exact List.length_take_le 6 _
    | simp

/-! ## C3: independence of the per-day threshold checks

The temperature, wind and UV checks are independent, but the heavy-rain and
regular-rain checks are not: the source guards the regular rain alert with
`else` («Rain alerts (only if not heavy rain)»), so a day above both
thresholds produces only the heavy-rain alert.  The claim's «yields both»
is therefore false; the counterexample and the amended statement follow. -/

/-- C3 counterexample.  On a concrete day with `totalprecip_mm = 60 > 50`
and `daily_chance_of_rain = 80 > 70`, `generateSmartAlerts` emits the
heavy-rain alert but not the regular rain alert. -/
theorem generateSmartAlerts_rain_not_independent_cex :
    sampleDay.day.totalprecip_mm > 50
    ∧ sampleDay.day.daily_chance_of_rain > 70
    ∧ "heavy-rain-2025-06-01" ∈
        (generateSmartAlerts [sampleDay] [] none [] 0 "2025-06-01" fun _ => 0).map (·.id)
    ∧ "rain-2025-06-01" ∉
        (generateSmartAlerts [sampleDay] [] none [] 0 "2025-06-01" fun _ => 0).map (·.id) := by
  decide

/-- C3 (amended).  For every forecast day, the heat, cold, wind and UV
alerts are each emitted exactly under their own field thresholds; the
heavy-rain alert is emitted exactly when `totalprecip_mm > 50`; the regular
rain alert is emitted exactly when the day is **not** a heavy-rain day and
`daily_chance_of_rain > 70` and `totalprecip_mm > 5`; consequently the
heavy-rain and regular rain alerts are never emitted together for the same
day. -/
theorem dayAlerts_threshold_independence (i : ℕ) (day : ForecastDay)
    (crops : List CropCycle) (ds : List DiseaseLogRow) :
    (generateHeavyRainAlert day crops ∈ dayAlerts i day crops ds ↔
      day.day.totalprecip_mm > 50)
    ∧ (generateRainAlert day crops ∈ dayAlerts i day crops ds ↔
      (¬day.day.totalprecip_mm > 50 ∧ day.day.daily_chance_of_rain > 70 ∧
        day.day.totalprecip_mm > 5))
    ∧ (generateHeatAlert day crops ∈ dayAlerts i day crops ds ↔
      day.day.maxtemp_c > 35)
    ∧ (generateColdAlert day crops ∈ dayAlerts i day crops ds ↔
      day.day.mintemp_c < 10)
    ∧ (generateWindAlert day crops ∈ dayAlerts i day crops ds ↔
      day.day.maxwind_kph > 40)
    ∧ (generateUVAlert day ∈ dayAlerts i day crops ds ↔
      (i < 2 ∧ day.day.uv > 8))
    ∧ ¬(generateHeavyRainAlert day crops ∈ dayAlerts i day crops ds ∧
        generateRainAlert day crops ∈ dayAlerts i day crops ds) := by
  have hHR : generateHeavyRainAlert day crops ∈ dayAlerts i day crops ds ↔
      day.day.totalprecip_mm > 50 := by
    constructor
    · intro h
      rcases mem_dayAlerts.mp h with ⟨hc, _⟩ | ⟨_, _, he⟩ | ⟨_, he⟩ | ⟨_, he⟩ |
        ⟨_, he⟩ | ⟨_, he⟩ | ⟨_, he⟩
      · exact hc
      all_goals exact absurd he (SmartAlert_ne_of_id_ne (strApp_ne (by decide) day.date))
    · intro h
      exact mem_dayAlerts.mpr (Or.inl ⟨h, rfl⟩)
  have hR : generateRainAlert day crops ∈ dayAlerts i day crops ds ↔
      (¬day.day.totalprecip_mm > 50 ∧ day.day.daily_chance_of_rain > 70 ∧
        day.day.totalprecip_mm > 5) := by
    constructor
    · intro h
      rcases mem_dayAlerts.mp h with ⟨_, he⟩ | ⟨hn, hc, _⟩ | ⟨_, he⟩ | ⟨_, he⟩ |
        ⟨_, he⟩ | ⟨_, he⟩ | ⟨_, he⟩
      · exact absurd he (SmartAlert_ne_of_id_ne (strApp_ne (by decide) day.date))
      · exact ⟨hn, hc.1, hc.2⟩
      all_goals exact absurd he (SmartAlert_ne_of_id_ne (strApp_ne (by decide) day.date))
    · intro h
      exact mem_dayAlerts.mpr (Or.inr (Or.inl ⟨h.1, ⟨h.2.1, h.2.2⟩, rfl⟩))
  have hHeat : generateHeatAlert day crops ∈ dayAlerts i day crops ds ↔
      day.day.maxtemp_c > 35 := by
    constructor
    · intro h
      rcases mem_dayAlerts.mp h with ⟨_, he⟩ | ⟨_, _, he⟩ | ⟨hc, _⟩ | ⟨_, he⟩ |
        ⟨_, he⟩ | ⟨_, he⟩ | ⟨_, he⟩
      · exact absurd he (SmartAlert_ne_of_id_ne (strApp_ne (by decide) day.date))
      · exact absurd he (SmartAlert_ne_of_id_ne (strApp_ne (by decide) day.date))
      · exact hc
      all_goals exact absurd he (SmartAlert_ne_of_id_ne (strApp_ne (by decide) day.date))
    · intro h
      exact mem_dayAlerts.mpr (Or.inr (Or.inr (Or.inl ⟨h, rfl⟩)))
  have hCold : generateColdAlert day crops ∈ dayAlerts i day crops ds ↔
      day.day.mintemp_c < 10 := by
    constructor
    · intro h
      rcases mem_dayAlerts.mp h with ⟨_, he⟩ | ⟨_, _, he⟩ | ⟨_, he⟩ | ⟨hc, _⟩ |
        ⟨_, he⟩ | ⟨_, he⟩ | ⟨_, he⟩
      · exact absurd he (SmartAlert_ne_of_id_ne (strApp_ne (by decide) day.date))
      · exact absurd he (SmartAlert_ne_of_id_ne (strApp_ne (by decide) day.date))
      · exact absurd he (SmartAlert_ne_of_id_ne (strApp_ne (by decide) day.date))
      · exact hc
      all_goals exact absurd he (SmartAlert_ne_of_id_ne (strApp_ne (by decide) day.date))
    · intro h
      exact mem_dayAlerts.mpr (Or.inr (Or.inr (Or.inr (Or.inl ⟨h, rfl⟩))))
  have hWind : generateWindAlert day crops ∈ dayAlerts i day crops ds ↔
      day.day.maxwind_kph > 40 := by
    constructor
    · intro h
      rcases mem_dayAlerts.mp h with ⟨_, he⟩ | ⟨_, _, he⟩ | ⟨_, he⟩ | ⟨_, he⟩ |
        ⟨hc, _⟩ | ⟨_, he⟩ | ⟨_, he⟩
      · exact absurd he (SmartAlert_ne_of_id_ne (strApp_ne (by decide) day.date))
      · exact absurd he (SmartAlert_ne_of_id_ne (strApp_ne (by decide) day.date))
      · exact absurd he (SmartAlert_ne_of_id_ne (strApp_ne (by decide) day.date))
      · exact absurd he (SmartAlert_ne_of_id_ne (strApp_ne (by decide) day.date))
      · exact hc
      all_goals exact absurd he (SmartAlert_ne_of_id_ne (strApp_ne (by decide) day.date))
    · intro h
      exact mem_dayAlerts.mpr (Or.inr (Or.inr (Or.inr (Or.inr (Or.inl ⟨h, rfl⟩)))))
  have hUV : generateUVAlert day ∈ dayAlerts i day crops ds ↔
      (i < 2 ∧ day.day.uv > 8) := by
    constructor
    · intro h
      rcases mem_dayAlerts.mp h with ⟨_, he⟩ | ⟨_, _, he⟩ | ⟨_, he⟩ | ⟨_, he⟩ |
        ⟨_, he⟩ | ⟨_, he⟩ | ⟨hc, _⟩
      · exact absurd he (SmartAlert_ne_of_id_ne (strApp_ne (by decide) day.date))
      · exact absurd he (SmartAlert_ne_of_id_ne (strApp_ne (by decide) day.date))
      · exact absurd he (SmartAlert_ne_of_id_ne (strApp_ne (by decide) day.date))
      · exact absurd he (SmartAlert_ne_of_id_ne (strApp_ne (by decide) day.date))
      · exact absurd he (SmartAlert_ne_of_id_ne (strApp_ne (by decide) day.date))
      · exact absurd he (SmartAlert_ne_of_id_ne (strApp_ne (by decide) day.date))
      · exact hc
    · intro h
      exact mem_dayAlerts.mpr
        (Or.inr (Or.inr (Or.inr (Or.inr (Or.inr (Or.inr ⟨h, rfl⟩))))))
  refine ⟨hHR, hR, hHeat, hCold, hWind, hUV, ?_⟩
  intro hb
  exact (hR.mp hb.2).1 (hHR.mp hb.1)

/-- Witness for C3 (amended), at the concrete heavy-rain day: the
heavy-rain alert is emitted and the regular rain alert is not. -/
theorem dayAlerts_threshold_independence_witness :
    generateHeavyRainAlert sampleDay [] ∈ dayAlerts 0 sampleDay [] []
    ∧ generateRainAlert sampleDay [] ∉ dayAlerts 0 sampleDay [] [] := by
  obtain ⟨h1, h2, _⟩ := dayAlerts_threshold_independence 0 sampleDay [] []
  refine ⟨h1.mpr (by decide), fun hm => ?_⟩
  exact (h2.mp hm).1 (by decide)

/-! ## C1, C4, C5: disease-log status classification -/

/-- With no unexpired manual status, `getCropStatus` reduces to the
disease-log classification (healthy on a query error). -/
theorem getCropStatus_no_manual (crop : CropCycle) (db : CropStatusDb) (now : ℤ)
    (hman : ∀ st t, db.manual_status = some st → db.manual_status_updated_at = some t →
      t ≤ now - 7 * msPerDay) :
    getCropStatus crop db now = statusFromLogs crop db now := by
  unfold getCropStatus
  rcases hms : db.manual_status with _ | st
  · rfl
  · rcases hmt : db.manual_status_updated_at with _ | t
    · rfl
    · exact if_neg (not_lt.mpr (hman st t hms hmt))

/-- Classification of the empty log list. -/
theorem classifyFromLogs_nil : classifyFromLogs [] = CropHealth.healthy := rfl

/-- Classification of a singleton mild or moderate log. -/
theorem classifyFromLogs_attention (l : DiseaseLogRow)
    (h : l.severity = .mild ∨ l.severity = .moderate) :
    classifyFromLogs [l] = CropHealth.attention := by
  rcases h with h | h <;> simp [classifyFromLogs, h]

/-- Classification is critical for two or more rows or any severe row. -/
theorem classifyFromLogs_critical (L : List DiseaseLogRow)
    (h : 2 ≤ L.length ∨ ∃ l ∈ L, l.severity = .severe) :
    classifyFromLogs L = CropHealth.critical := by
  by_cases h2 : 2 ≤ L.length
  · have h0 : ¬L.length = 0 := by omega
    simp [classifyFromLogs, h0, h2]
  · rcases h with h | ⟨l, hl, hsev⟩
    · exact absurd h h2
    · rcases L with _ | ⟨a, _ | ⟨b, t⟩⟩
      · cases hl
      · have ha : l = a := by simpa using hl
        subst ha
        simp [classifyFromLogs, hsev]
      · exact absurd (by simp : 2 ≤ (a :: b :: t).length) h2

/-- C1.  For every crop with no unexpired manual status (and a successful
disease-log query), `getCropStatus` classifies from the crop's disease logs
of the last 30 days by fixed thresholds on counts: `healthy` when there are
no rows, `attention` when there is exactly one row of severity mild or
moderate, and `critical` when there are at least 2 rows or at least one
severe row. -/
theorem getCropStatus_threshold_classification (crop : CropCycle)
    (db : CropStatusDb) (now : ℤ)
    (hman : ∀ st t, db.manual_status = some st → db.manual_status_updated_at = some t →
      t ≤ now - 7 * msPerDay)
    (herr : db.disease_query_error = false) :
    (recentDiseaseLogs db crop.crop_id now = [] →
      getCropStatus crop db now = CropHealth.healthy)
    ∧ (∀ l, recentDiseaseLogs db crop.crop_id now = [l] →
        l.severity = .mild ∨ l.severity = .moderate →
        getCropStatus crop db now = CropHealth.attention)
    ∧ ((2 ≤ (recentDiseaseLogs db crop.crop_id now).length ∨
        ∃ l ∈ recentDiseaseLogs db crop.crop_id now, l.severity = .severe) →
        getCropStatus crop db now = CropHealth.critical) := by
  have hred : getCropStatus crop db now =
      classifyFromLogs (recentDiseaseLogs db crop.crop_id now) := by
    rw [getCropStatus_no_manual crop db now hman]
    simp [statusFromLogs, herr]
  refine ⟨?_, ?_, ?_⟩
  · intro h
    rw [hred, h, classifyFromLogs_nil]
  · intro l hL hsev
    rw [hred, hL, classifyFromLogs_attention l hsev]
  · intro h
    rw [hred, classifyFromLogs_critical _ h]

/-- Witness for C1: a crop with a single mild disease log (and no manual
status) is classified `attention`. -/
theorem getCropStatus_threshold_classification_witness :
    getCropStatus sampleCrop ⟨none, none, false, [sampleLog .mild]⟩ 0 =
      CropHealth.attention := by
  have h := getCropStatus_threshold_classification sampleCrop
    ⟨none, none, false, [sampleLog .mild]⟩ 0
    (fun st t hst _ => by cases hst) rfl
  exact h.2.1 (sampleLog .mild) (by decide) (Or.inl rfl)

/-- C4 counterexample.  Two stored states with identical disease logs (both
empty) on which `getCropStatus` disagrees: one has no manual status
(healthy), the other a fresh manual `critical` override (critical).
`getCropStatus` is therefore not a pure lookup on the disease-log rows. -/
theorem getCropStatus_manual_override_cex :
    (CropStatusDb.mk none none false []).disease_logs =
      (CropStatusDb.mk (some .critical) (some 0) false []).disease_logs
    ∧ getCropStatus sampleCrop ⟨none, none, false, []⟩ 0 = CropHealth.healthy
    ∧ getCropStatus sampleCrop ⟨some .critical, some 0, false, []⟩ 0 =
        CropHealth.critical := by
  decide

/-- C4 (amended).  For any two stored states in which no unexpired manual
status exists, whose disease-log queries succeed alike, and whose disease
logs for the crop (last 30 days) are equal, `getCropStatus` returns the
same status for that crop regardless of any other stored state. -/
theorem getCropStatus_pure_on_logs (crop : CropCycle) (db1 db2 : CropStatusDb)
    (now : ℤ)
    (h1 : ∀ st t, db1.manual_status = some st → db1.manual_status_updated_at = some t →
      t ≤ now - 7 * msPerDay)
    (h2 : ∀ st t, db2.manual_status = some st → db2.manual_status_updated_at = some t →
      t ≤ now - 7 * msPerDay)
    (herr : db1.disease_query_error = db2.disease_query_error)
    (hlogs : recentDiseaseLogs db1 crop.crop_id now =
      recentDiseaseLogs db2 crop.crop_id now) :
    getCropStatus crop db1 now = getCropStatus crop db2 now := by
  rw [getCropStatus_no_manual crop db1 now h1, getCropStatus_no_manual crop db2 now h2]
  unfold statusFromLogs
  rw [herr, hlogs]

/-- Witness for C4 (amended): a state with no manual status and a state
with an expired manual `attention` override, equal (empty) disease logs:
the status agrees. -/
theorem getCropStatus_pure_on_logs_witness :
    getCropStatus sampleCrop ⟨none, none, false, []⟩ 0 =
      getCropStatus sampleCrop ⟨some .attention, some (-8 * msPerDay), false, []⟩ 0 :=
  getCropStatus_pure_on_logs sampleCrop _ _ 0
    (fun st t hst _ => by cases hst)
    (fun st t _ htt => by
      injection htt with ht
      rw [← ht]
      decide)
    rfl rfl

/-- C5.  Whenever the disease-log query runs (no unexpired manual status)
and returns an error, `getCropStatus` returns the default `healthy`, for
every crop and stored state. -/
theorem getCropStatus_query_error_healthy (crop : CropCycle) (db : CropStatusDb)
    (now : ℤ)
    (hman : ∀ st t, db.manual_status = some st → db.manual_status_updated_at = some t →
      t ≤ now - 7 * msPerDay)
    (herr : db.disease_query_error = true) :
    getCropStatus crop db now = CropHealth.healthy := by
  rw [getCropStatus_no_manual crop db now hman]
  simp [statusFromLogs, herr]

/-- Witness for C5: a failing disease-log query over a state that even
contains two severe logs still yields `healthy`. -/
theorem getCropStatus_query_error_healthy_witness :
    getCropStatus sampleCrop
      ⟨none, none, true, [sampleLog .severe, sampleLog .severe]⟩ 0 =
      CropHealth.healthy :=
  getCropStatus_query_error_healthy sampleCrop _ 0
    (fun st t hst _ => by cases hst) rfl

/-! ## C6: multilingual fallback reply of the advisory AI -/

/-- C6.  When the generative-AI call fails (model not configured, timeout,
thrown error, or empty response), `generateAdvice` returns the canned
fallback response rather than propagating the error, and that response's
message is the fixed `fallbackMessages` string for the farmer's preferred
language (`'mixed'` when no language is set in either the UI or the
database context). -/
theorem generateAdvice_fallback_on_failure (context dbContext : FarmerContext)
    (parseResponse : String → FarmerContext → CropAdvisoryResponse) :
    (generateAdvice context dbContext parseResponse .notConfigured =
        getFallbackResponse (enrichContext context dbContext))
    ∧ (generateAdvice context dbContext parseResponse .timeout =
        getFallbackResponse (enrichContext context dbContext))
    ∧ (generateAdvice context dbContext parseResponse .threwError =
        getFallbackResponse (enrichContext context dbContext))
    ∧ (generateAdvice context dbContext parseResponse .emptyResponse =
        getFallbackResponse (enrichContext context dbContext))
    ∧ (getFallbackResponse (enrichContext context dbContext)).message =
        fallbackMessages
          (((context.farmerProfile.bind (·.preferredLanguage)).orElse
            fun _ => dbContext.farmerProfile.bind (·.preferredLanguage)).getD .mixed) := by
  refine ⟨rfl, rfl, rfl, rfl, ?_⟩
  simp [getFallbackResponse, enrichContext]

/-! ## C7: `markCropAsHarvested` only clears the active flag -/

/-- C7.  `markCropAsHarvested` preserves the number of rows; positionally,
every field of every row is unchanged except `is_active`, which is cleared
exactly on rows whose `crop_id` and `user_id` match; the marked crop is
thereafter excluded from `getActiveCrops`; and `getActiveCrops` only ever
returns rows with `is_active = true`. -/
theorem markCropAsHarvested_frame (userId : String) (cropId : Int)
    (db : List CropCycle) :
    (markCropAsHarvested userId cropId db).length = db.length
    ∧ (∀ p ∈ db.zip (markCropAsHarvested userId cropId db),
        p.2.crop_id = p.1.crop_id ∧ p.2.crop_name = p.1.crop_name
        ∧ p.2.sowing_date = p.1.sowing_date
        ∧ p.2.expected_harvest_date = p.1.expected_harvest_date
        ∧ p.2.current_stage = p.1.current_stage
        ∧ p.2.predicted_yield = p.1.predicted_yield
        ∧ p.2.user_id = p.1.user_id
        ∧ p.2.is_active =
            (if p.1.crop_id = cropId ∧ p.1.user_id = userId then false
             else p.1.is_active))
    ∧ (∀ r ∈ getActiveCrops userId (markCropAsHarvested userId cropId db),
        r.crop_id ≠ cropId)
    ∧ (∀ u (d : List CropCycle), ∀ r ∈ getActiveCrops u d, r.is_active = true) := by
  refine ⟨by simp [markCropAsHarvested], ?_, ?_, ?_⟩
  · intro p hp
    rw [markCropAsHarvested, zip_map_self] at hp
    obtain ⟨r, _, rfl⟩ := List.mem_map.mp hp
    by_cases hc : r.crop_id = cropId ∧ r.user_id = userId
    · simp [harvestRow, hc]
    · simp [harvestRow, hc]
  · intro r hr
    have hr1 : r ∈ (markCropAsHarvested userId cropId db).filter
        (fun x => decide (x.user_id = userId ∧ x.is_active = true)) :=
      (List.mem_insertionSort cropIdDesc).mp hr
    obtain ⟨hmem, hpred⟩ := List.mem_filter.mp hr1
    obtain ⟨hau, haa⟩ := of_decide_eq_true hpred
    obtain ⟨r0, _, heq⟩ := List.mem_map.mp hmem
    intro hid
    by_cases hc : r0.crop_id = cropId ∧ r0.user_id = userId
    · rw [← heq] at haa
      simp [harvestRow, hc] at haa
    · apply hc
      rw [← heq] at hid hau
      simp only [harvestRow, if_neg hc] at hid hau
      exact ⟨hid, hau⟩
  · intro u d r hr
    have hr1 := (List.mem_insertionSort cropIdDesc).mp hr
    exact (of_decide_eq_true (List.mem_filter.mp hr1).2).2

/-- Witness for C7 at a concrete two-row table: the length is preserved and
no returned active crop of the user carries the harvested id. -/
theorem markCropAsHarvested_frame_witness :
    (markCropAsHarvested "farmer-1" 1 [sampleCrop, otherCrop]).length =
      [sampleCrop, otherCrop].length
    ∧ (∀ r ∈ getActiveCrops "farmer-1"
        (markCropAsHarvested "farmer-1" 1 [sampleCrop, otherCrop]),
        r.crop_id ≠ 1) :=
  ⟨(markCropAsHarvested_frame "farmer-1" 1 [sampleCrop, otherCrop]).1,
   (markCropAsHarvested_frame "farmer-1" 1 [sampleCrop, otherCrop]).2.2.1⟩

/-! ## C8: the in-progress guard admits at most one update in flight -/

/-- Invariant of the guard machine: the number of in-flight tasks is 1 when
`locationUpdateInProgress` is set and 0 when it is clear. -/
theorem reachable_flag_count {s : LocationGuard.MState}
    (h : LocationGuard.Reachable s) :
    s.tasks.countP LocationGuard.Pc.inFlight = (if s.inProgress then 1 else 0) := by
  induction h with
  | init => rfl
  | step hr hstep ih =>
    cases hstep with
    | spawn s =>
      simpa [List.countP_cons, LocationGuard.Pc.inFlight] using ih
    | task f f' l r pc ev nx ht =>
      cases ht with
      | guardBusy =>
        simpa [List.countP_append, List.countP_cons, Option.toList,
          LocationGuard.Pc.inFlight] using ih
      | guardCooldown =>
        simpa [List.countP_append, List.countP_cons, Option.toList,
          LocationGuard.Pc.inFlight] using ih
      | guardEnter =>
        simp [List.countP_append, List.countP_cons, Option.toList,
          LocationGuard.Pc.inFlight, -List.countP_eq_zero] at ih ⊢
        omega
      | userMissing f =>
        cases f <;>
          simp [List.countP_append, List.countP_cons, Option.toList,
            LocationGuard.Pc.inFlight, -List.countP_eq_zero] at ih ⊢
        all_goals omega
      | userOk f =>
        cases f <;>
          simpa [List.countP_append, List.countP_cons, Option.toList,
            LocationGuard.Pc.inFlight] using ih
      | geoNull f =>
        cases f <;>
          simpa [List.countP_append, List.countP_cons, Option.toList,
            LocationGuard.Pc.inFlight] using ih
      | geoOk f =>
        cases f <;>
          simpa [List.countP_append, List.countP_cons, Option.toList,
            LocationGuard.Pc.inFlight] using ih
      | geoThrew f =>
        cases f <;>
          simp [List.countP_append, List.countP_cons, Option.toList,
            LocationGuard.Pc.inFlight, -List.countP_eq_zero] at ih ⊢
        all_goals omega
      | saveFallbackDone f ok =>
        cases f <;>
          simp [List.countP_append, List.countP_cons, Option.toList,
            LocationGuard.Pc.inFlight, -List.countP_eq_zero] at ih ⊢
        all_goals omega
      | saveDone f ok =>
        cases f <;>
          simp [List.countP_append, List.countP_cons, Option.toList,
            LocationGuard.Pc.inFlight, -List.countP_eq_zero] at ih ⊢
        all_goals omega

/-- C8.  In every reachable state of the guard machine at most one location
update is in flight, and while `locationUpdateInProgress` is set the only
step a freshly-called task can take is the guard's early return: it returns
`null`, does not start running, and leaves the flag set — so the
"two concurrent updates" state is never reached. -/
theorem locationGuard_single_flight (s : LocationGuard.MState)
    (h : LocationGuard.Reachable s) :
    LocationGuard.inFlightCount s ≤ 1
    ∧ (s.inProgress = true →
        ∀ ev f' nx,
          LocationGuard.TaskStep s.inProgress LocationGuard.Pc.pcGuard ev f' nx →
          ev = LocationGuard.Ev.ret false ∧ f' = true ∧ nx = none) := by
  constructor
  · have hinv := reachable_flag_count h
    unfold LocationGuard.inFlightCount
    rw [hinv]
    split <;> omega
  · intro hp ev f' nx hstep
    rw [hp] at hstep
    cases hstep
    exact ⟨rfl, rfl, rfl⟩

/-- Witness for C8 at a concrete reachable state: one update awaiting
geolocation and a second call at the guard — at most one is in flight. -/
theorem locationGuard_single_flight_witness :
    LocationGuard.inFlightCount
      ⟨true, [LocationGuard.Pc.pcGuard, LocationGuard.Pc.awaitGeo]⟩ ≤ 1 := by
  have h0 : LocationGuard.Reachable ⟨false, []⟩ := LocationGuard.Reachable.init
  have h1 : LocationGuard.Reachable ⟨false, [LocationGuard.Pc.pcGuard]⟩ :=
    h0.step (LocationGuard.Step.spawn _)
  have h2 : LocationGuard.Reachable ⟨true, [LocationGuard.Pc.awaitUser]⟩ :=
    h1.step (LocationGuard.Step.task false true [] [] _ _ _
      LocationGuard.TaskStep.guardEnter)
  have h3 : LocationGuard.Reachable ⟨true, [LocationGuard.Pc.awaitGeo]⟩ :=
    h2.step (LocationGuard.Step.task true true [] [] _ _ _
      (LocationGuard.TaskStep.userOk true))
  have h4 : LocationGuard.Reachable
      ⟨true, [LocationGuard.Pc.pcGuard, LocationGuard.Pc.awaitGeo]⟩ :=
    h3.step (LocationGuard.Step.spawn _)
  exact (locationGuard_single_flight _ h4).1

/-! ## C10: fallback coordinates when geolocation is unavailable -/

/-- C10 counterexample.  With an authenticated user and unavailable
geolocation, but a failing database save, `updateUserLocation` returns
`null` rather than the fallback location — so the claim's unconditional
"does not fail" is false. -/
theorem updateUserLocation_fallback_cex :
    (LocationEnv.mk 100000 "2025-06-01T00:00:00.000Z" (some sampleUser) none
      false).user = some sampleUser
    ∧ (LocationEnv.mk 100000 "2025-06-01T00:00:00.000Z" (some sampleUser) none
        false).geo = none
    ∧ (updateUserLocation ⟨false, false, 0⟩
        ⟨100000, "2025-06-01T00:00:00.000Z", some sampleUser, none, false⟩).1 =
        none :=
  ⟨rfl, rfl, rfl⟩

/-- C10 (amended).  When no update is in flight, the permission-denied
cooldown is not active, an authenticated user exists, geolocation is
unavailable, and the database save succeeds, `updateUserLocation` returns
exactly the fallback location (latitude 28.6872, longitude 77.2140,
accuracy 1000, Delhi/Delhi/India) and records the permission denial. -/
theorem updateUserLocation_fallback_location (flags : LocationFlags)
    (env : LocationEnv) (u : AuthUser)
    (hprog : flags.locationUpdateInProgress = false)
    (hcool : ¬(flags.permissionDenied = true ∧
      env.now - flags.lastPermissionCheck < PERMISSION_CHECK_COOLDOWN))
    (huser : env.user = some u)
    (hgeo : env.geo = none)
    (hsave : env.saveOk = true) :
    updateUserLocation flags env =
      (some { latitude := 28.6872
              longitude := 77.2140
              accuracy := some 1000
              city := some "Delhi"
              state := some "Delhi"
              country := some "India"
              location_updated_at := some env.nowIso },
       { locationUpdateInProgress := false
         permissionDenied := true
         lastPermissionCheck := env.now }) := by
  simp [updateUserLocation, hprog, hcool, huser, hgeo, hsave, fallbackLocation]

/-- Witness for C10 (amended) at concrete flags and environment. -/
theorem updateUserLocation_fallback_location_witness :
    (updateUserLocation ⟨false, false, 0⟩
      ⟨100000, "2025-06-01T00:00:00.000Z", some sampleUser, none, true⟩).1 =
      some { latitude := 28.6872
             longitude := 77.2140
             accuracy := some 1000
             city := some "Delhi"
             state := some "Delhi"
             country := some "India"
             location_updated_at := some "2025-06-01T00:00:00.000Z" } := by
  have h := updateUserLocation_fallback_location ⟨false, false, 0⟩
    ⟨100000, "2025-06-01T00:00:00.000Z", some sampleUser, none, true⟩ sampleUser
    rfl (by decide) rfl rfl rfl
  rw [h]

end FasalSetu
